import Mathlib

/-!
Verification of the session/event notification core of the winytils repository.

The definitions below are shallow embeddings of the Python source files
`workstation_events.py`, `machine_state_watcher.py` / `pc_state.py` and
`workstation.py`. Python ints become `Int`, `int | None` becomes `Option Int`,
the handler registry (a `defaultdict(list)` keyed by `astuple(event)`) becomes
a total function from field triples to lists, and handlers are abstract values
of a type parameter `H` so that theorems can speak about which handler is
invoked with which argument. Definitions whose doc comment says `spec side`
are written from the specification text and are compared against the
source-side definitions by the theorems.
-/

namespace Winytils

/-- Registry key type: the value of `dataclasses.astuple` on an `Event`
(`workstation_events.py`, fields `msg`, `wparam`, `lparam`, each `int | None`). -/
abbrev Pattern := Option Int × Option Int × Option Int

/-- The runtime class of an event object. `workstation_events.py` declares the
base dataclass `Event` and the derived dataclasses `AnyEvent`, `LockEvent`,
`UnlockEvent`, `DeviceChangeEvent`, `PowerStatusChangedEvent`, which differ
only in their field defaults. -/
inductive EventClass where
  | base
  | anyE
  | lockE
  | unlockE
  | deviceChangeE
  | powerStatusE
  deriving DecidableEq

/-- An event object: its runtime class together with the three dataclass
fields `msg`, `wparam`, `lparam` (`workstation_events.py` lines 28-75). -/
structure PyEvent where
  cls : EventClass
  msg : Option Int
  wparam : Option Int
  lparam : Option Int
  deriving DecidableEq

/-- Default construction of each event class, with the field defaults taken
from the source: `Event` defaults all three fields to `0`; `AnyEvent` to
`None`; `LockEvent` to `(0x2B1, 0x7, None)`; `UnlockEvent` to
`(0x2B1, 0x8, None)`; `DeviceChangeEvent` to `(0x219, 0x7, None)`;
`PowerStatusChangedEvent` to `(WM_POWERBROADCAST = 0x218,
PBT_APMPOWERSTATUSCHANGE = 0xA, None)`. -/
def defaultEvent : EventClass → PyEvent
  | .base => ⟨.base, some 0, some 0, some 0⟩
  | .anyE => ⟨.anyE, none, none, none⟩
  | .lockE => ⟨.lockE, some 0x2B1, some 0x7, none⟩
  | .unlockE => ⟨.unlockE, some 0x2B1, some 0x8, none⟩
  | .deviceChangeE => ⟨.deviceChangeE, some 0x219, some 0x7, none⟩
  | .powerStatusE => ⟨.powerStatusE, some 0x218, some 0xA, none⟩

/-- `dataclasses.astuple` on an event: the triple of its fields. Note that the
runtime class is dropped, so all class information is erased in registry keys. -/
def astuple (e : PyEvent) : Pattern := (e.msg, e.wparam, e.lparam)

/-- The handler registry `event_handlers : Dict[tuple, List[Callable]]`, a
`defaultdict(list)`: a total map from `astuple` keys to handler lists, where
an absent key reads as the empty list. -/
def Registry (H : Type) := Pattern → List H

/-- The registry of a fresh listener: every key maps to the empty list. -/
def emptyRegistry {H : Type} : Registry H := fun _ => []

/-- The argument accepted by `WorkstationEventsListener.on`: either an event
instance or an event class (the source checks `inspect.isclass(event)`). -/
inductive EventArg where
  | inst (e : PyEvent)
  | cls (c : EventClass)

/-- `WorkstationEventsListener.on` (`workstation_events.py` lines 142-147):
if the argument is a class it is replaced by a default-constructed instance,
then the handler is appended to the registry list under `astuple(event)`. -/
def onEvent {H : Type} (reg : Registry H) (event : EventArg) (handler : H) : Registry H :=
  let e := match event with
    | .inst e => e
    | .cls c => defaultEvent c
  fun k => if k = astuple e then reg (astuple e) ++ [handler] else reg k

/-- The dispatch portion of `WorkstationEventsListener._window_procedure`
(`workstation_events.py` lines 127-134): four lookup loops, keyed by
`astuple(Event(msg, wparam, lparam))`, `astuple(Event(msg, wparam, None))`,
`astuple(Event(msg, None, None))` and `astuple(AnyEvent())`, each handler
being passed the freshly constructed concrete `Event(msg, wparam, lparam)`.
The result lists the invocations in order: which handler is called, with
which event argument. -/
def dispatch {H : Type} (reg : Registry H) (msg wparam lparam : Option Int) :
    List (H × PyEvent) :=
  ((reg (msg, wparam, lparam)).map (fun h => (h, PyEvent.mk .base msg wparam lparam)))
    ++ ((reg (msg, wparam, none)).map (fun h => (h, PyEvent.mk .base msg wparam lparam)))
    ++ ((reg (msg, none, none)).map (fun h => (h, PyEvent.mk .base msg wparam lparam)))
    ++ ((reg (astuple (defaultEvent .anyE))).map
          (fun h => (h, PyEvent.mk .base msg wparam lparam)))

/-- spec side: the four specificity tiers of a concrete event, from most to
least specific — exact, category+subcode, category-only, wildcard-any
(specification section 4.1). -/
def specificityTiers (msg wparam lparam : Option Int) : List Pattern :=
  [(msg, wparam, lparam), (msg, wparam, none), (msg, none, none), (none, none, none)]

/-- `WorkstationEventsListener._window_procedure` in full
(`workstation_events.py` lines 125-140): it first runs the four dispatch
loops, then checks whether the message is `WM_CLOSE = 0x10` or
`WM_DESTROY = 0x2` and, if so, performs teardown (`PostQuitMessage`,
`DestroyWindow`). The second component records whether teardown happened. -/
def window_procedure {H : Type} (reg : Registry H) (msg wparam lparam : Option Int) :
    List (H × PyEvent) × Bool :=
  (dispatch reg msg wparam lparam, decide (msg = some 0x10 ∨ msg = some 0x2))

/-- Claim C1: dispatch invokes, for each of the four specificity tiers in
order (exact, category+subcode, category-only, any), every handler registered
under exactly that pattern, in registration order within the tier, and every
invocation passes the full concrete event `Event(msg, wparam, lparam)` rather
than the wildcarded pattern. Formally the invocation list of the source-side
`dispatch` equals the fan-out of the spec-side `specificityTiers` over the
registry, pairing every handler with the concrete event. -/
theorem dispatch_eq_tier_fanout {H : Type} (reg : Registry H) (m w l : Option Int) :
    dispatch reg m w l =
      (specificityTiers m w l).flatMap
        (fun p => (reg p).map (fun h => (h, PyEvent.mk .base m w l))) := by
  simp [dispatch, specificityTiers, astuple, defaultEvent]

/-- Claim C10: registering with a class argument is the same as registering
with a default-constructed instance of that class: the resulting registries
are equal, the resolved key gets the handler appended after the existing
entries with every other key unchanged, and dispatch behaviour for every
subsequent event is identical. -/
theorem on_class_eq_on_instance :
    ∀ (H : Type) (reg : Registry H) (c : EventClass) (hd : H),
      onEvent reg (.cls c) hd = onEvent reg (.inst (defaultEvent c)) hd ∧
      (∀ k : Pattern, onEvent reg (.cls c) hd k =
        if k = astuple (defaultEvent c)
          then reg (astuple (defaultEvent c)) ++ [hd] else reg k) ∧
      (∀ m w l : Option Int,
        dispatch (onEvent reg (.cls c) hd) m w l
          = dispatch (onEvent reg (.inst (defaultEvent c)) hd) m w l) :=
  fun _ _ _ _ => ⟨rfl, fun _ => rfl, fun _ _ _ => rfl⟩

/-- Python equality on event objects. The dataclasses are declared with
`eq=True`, so the generated `__eq__` compares the field tuples when the two
operands have the same runtime class and otherwise returns `NotImplemented`,
which makes `==` fall back to identity — `false` for distinct objects of
different classes even when all fields agree. -/
def pyEq (a b : PyEvent) : Bool :=
  if a.cls = b.cls then
    decide (a.msg = b.msg ∧ a.wparam = b.wparam ∧ a.lparam = b.lparam)
  else false

/-- Claim C9, counterexample: `LockEvent()` and `Event(0x2B1, 0x7, None)`
agree on all three fields but compare unequal under the Python equality test,
because their runtime classes differ. This refutes the claim that equality
holds iff the three fields are pairwise equal. -/
theorem event_eq_cross_class_counterexample :
    pyEq (defaultEvent .lockE) (PyEvent.mk .base (some 0x2B1) (some 0x7) none) = false ∧
    (defaultEvent .lockE).msg = (PyEvent.mk .base (some 0x2B1) (some 0x7) none).msg ∧
    (defaultEvent .lockE).wparam = (PyEvent.mk .base (some 0x2B1) (some 0x7) none).wparam ∧
    (defaultEvent .lockE).lparam = (PyEvent.mk .base (some 0x2B1) (some 0x7) none).lparam := by
  decide

/-- Claim C9, amended: for any two event values (covering the base class and
all derived pattern classes), the equality test returns true iff the two
values have the same runtime class and their `msg`, `wparam` and `lparam`
fields are pairwise equal. -/
theorem pyEq_iff_class_and_fields :
    ∀ a b : PyEvent, pyEq a b = true ↔
      (a.cls = b.cls ∧ a.msg = b.msg ∧ a.wparam = b.wparam ∧ a.lparam = b.lparam) := by
  intro a b
  unfold pyEq
  by_cases h : a.cls = b.cls <;> simp [h]

/-- Claim C6: during the dispatch of any single event (including events whose
subcode or detail field is unset, where specificity tiers coincide), a handler
that occurs exactly once in the registry list of one Interest Pattern is
invoked exactly once per specificity tier of the event whose pattern equals
its registration key, and never for a tier with a different pattern: its
invocation count equals the multiplicity of its key among the four tiers. -/
theorem dispatch_count_eq_tier_multiplicity {H : Type} [DecidableEq H]
    (reg : Registry H) (h : H) (p : Pattern) (m w l : Option Int)
    (hp : (reg p).count h = 1)
    (hq : ∀ q : Pattern, q ≠ p → (reg q).count h = 0) :
    ((dispatch reg m w l).map Prod.fst).count h = (specificityTiers m w l).count p := by
  have key : ∀ t : Pattern, (reg t).count h = if t = p then 1 else 0 := by
    intro t
    by_cases ht : t = p
    · subst ht; simp [hp]
    · simp [hq t ht, ht]
  have hmap : (dispatch reg m w l).map Prod.fst =
      reg (m, w, l) ++ reg (m, w, none) ++ reg (m, none, none) ++ reg (none, none, none) := by
    simp [dispatch, astuple, defaultEvent, List.map_map, Function.comp_def]
  rw [hmap]
  simp only [List.count_append, key, specificityTiers, List.count_cons, List.count_nil]
  by_cases h1 : (m, w, l) = p <;> by_cases h2 : (m, w, none) = p <;>
    by_cases h3 : ((m, none, none) : Pattern) = p <;>
    by_cases h4 : ((none, none, none) : Pattern) = p <;>
    simp [h1, h2, h3, h4]

/-- A concrete registry for the C6 witness: the handler `5` registered once,
under the `LockEvent` class (key `(0x2B1, 0x7, None)`). -/
def regC6 : Registry Nat := onEvent emptyRegistry (.cls .lockE) 5

/-- Claim C6, witness: for the event `(0x2B1, 0x7, detail unset)` the first
two specificity tiers coincide with the registration key of handler `5`, so
the handler is invoked exactly twice — the tier multiplicity of its key. -/
theorem dispatch_count_eq_tier_multiplicity_witness :
    ((dispatch regC6 (some 0x2B1) (some 0x7) none).map Prod.fst).count 5
      = (specificityTiers (some 0x2B1) (some 0x7) none).count
          ((some 0x2B1 : Option Int), (some 0x7 : Option Int), (none : Option Int)) :=
  dispatch_count_eq_tier_multiplicity regC6 5 (some 0x2B1, some 0x7, none)
    (some 0x2B1) (some 0x7) none (by decide)
    (fun q hqp => by
      simp only [regC6, onEvent, emptyRegistry, astuple, defaultEvent]
      rw [if_neg hqp]
      rfl)

/-- Execution of a dispatch invocation list when handlers may raise: the
source (`workstation_events.py` lines 127-134, `pc_state.py` lines 98-103)
invokes handlers in sequence with no try/except, so the first handler that
raises aborts everything after it and the exception escapes the window
procedure. `raises h = true` means handler `h` raises when invoked. The
first component lists the invocations that actually start (the raising
handler included), the second component is true iff an exception escapes. -/
def runHandlers {H : Type} (raises : H → Bool) :
    List (H × PyEvent) → List (H × PyEvent) × Bool
  | [] => ([], false)
  | p :: rest =>
    if raises p.1 then ([p], true)
    else
      let r := runHandlers raises rest
      (p :: r.1, r.2)

theorem runHandlers_eq_span {H : Type} (raises : H → Bool) (l : List (H × PyEvent)) :
    runHandlers raises l =
      (l.takeWhile (fun p => !raises p.1) ++ (l.dropWhile (fun p => !raises p.1)).take 1,
       l.any (fun p => raises p.1)) := by
  induction l with
  | nil => rfl
  | cons p rest ih =>
    by_cases hp : raises p.1 <;>
      simp [runHandlers, List.takeWhile_cons, List.dropWhile_cons, hp, ih]

/-- A registry for the C4 counterexample: handler `1` under the exact pattern
`(0x2B1, 0x7, 1)` and handler `2` under the any-event pattern, as produced by
two `on` registrations. -/
def regC4 : Registry Nat :=
  onEvent (onEvent emptyRegistry (.inst (PyEvent.mk .base (some 0x2B1) (some 0x7) (some 1))) 1)
    (.cls .anyE) 2

/-- Handler `1` raises; handler `2` does not. -/
def raisesC4 : Nat → Bool := fun h => h == 1

/-- Claim C4, counterexample: with a raising exact-tier handler `1` and an
observing any-tier handler `2`, dispatching the event `(0x2B1, 0x7, 1)` lets
the exception escape and only handler `1` ever starts — the remaining
matching handler `2` in a later tier is not invoked, refuting the claim that
it still runs and that the exception is caught. -/
theorem raising_handler_aborts_dispatch_counterexample :
    ((runHandlers raisesC4 (dispatch regC4 (some 0x2B1) (some 0x7) (some 1))).1.map
        Prod.fst) = [1] ∧
    (runHandlers raisesC4 (dispatch regC4 (some 0x2B1) (some 0x7) (some 1))).2 = true := by
  decide

/-- Claim C4, amended: if a registered handler raises during dispatch of an
event, the handlers before the first raising one run, the first raising one
starts, every handler after it — same tier or later tier — is not invoked,
and the exception escapes the window procedure uncaught (there is no
per-handler catch); if no invoked handler raises, all matching handlers run
and no exception escapes. -/
theorem dispatch_raising_handler_aborts {H : Type} (reg : Registry H)
    (m w l : Option Int) (raises : H → Bool) :
    runHandlers raises (dispatch reg m w l) =
      ((dispatch reg m w l).takeWhile (fun p => !raises p.1)
          ++ ((dispatch reg m w l).dropWhile (fun p => !raises p.1)).take 1,
       (dispatch reg m w l).any (fun p => raises p.1)) :=
  runHandlers_eq_span raises (dispatch reg m w l)

/-- A registry for the C7 counterexample: handler `3` registered for any
event. -/
def regC7 : Registry Nat := onEvent emptyRegistry (.cls .anyE) 3

/-- Claim C7, counterexample: in `WorkstationEventsListener._window_procedure`
the four dispatch loops run before the `WM_CLOSE`/`WM_DESTROY` check, so a
teardown broadcast `(WM_CLOSE = 0x10, 0, 0)` does invoke the registered
any-event handler `3` (and then also performs teardown), refuting the claim
that no registered handler is invoked for a teardown broadcast. -/
theorem teardown_dispatch_counterexample :
    (window_procedure regC7 (some 0x10) (some 0) (some 0)).1 =
        [(3, PyEvent.mk .base (some 0x10) (some 0) (some 0))] ∧
    (window_procedure regC7 (some 0x10) (some 0) (some 0)).2 = true := by
  decide

/-- The `SessionEvent` enum shared by `machine_state_watcher.py` and
`pc_state.py`. -/
inductive SessionEvent where
  | ANY
  | CHANGE
  | CONSOLE_CONNECT
  | CONSOLE_DISCONNECT
  | REMOTE_CONNECT
  | REMOTE_DISCONNECT
  | SESSION_LOGON
  | SESSION_LOGOFF
  | SESSION_LOCK
  | SESSION_UNLOCK
  | SESSION_REMOTE_CONTROL
  deriving DecidableEq

/-- The integer value of each `SessionEvent` enum member. -/
def SessionEvent.code : SessionEvent → Int
  | .ANY => 0
  | .CHANGE => 0x2B1
  | .CONSOLE_CONNECT => 0x1
  | .CONSOLE_DISCONNECT => 0x2
  | .REMOTE_CONNECT => 0x3
  | .REMOTE_DISCONNECT => 0x4
  | .SESSION_LOGON => 0x5
  | .SESSION_LOGOFF => 0x6
  | .SESSION_LOCK => 0x7
  | .SESSION_UNLOCK => 0x8
  | .SESSION_REMOTE_CONTROL => 0x9

/-- Python enum value lookup `SessionEvent(wparam)`: returns the member with
that value, and raises `ValueError` (here `none`) for any other integer. -/
def SessionEvent.ofCode (v : Int) : Option SessionEvent :=
  if v = 0 then some .ANY
  else if v = 0x2B1 then some .CHANGE
  else if v = 0x1 then some .CONSOLE_CONNECT
  else if v = 0x2 then some .CONSOLE_DISCONNECT
  else if v = 0x3 then some .REMOTE_CONNECT
  else if v = 0x4 then some .REMOTE_DISCONNECT
  else if v = 0x5 then some .SESSION_LOGON
  else if v = 0x6 then some .SESSION_LOGOFF
  else if v = 0x7 then some .SESSION_LOCK
  else if v = 0x8 then some .SESSION_UNLOCK
  else if v = 0x9 then some .SESSION_REMOTE_CONTROL
  else none

/-- `WorkstationMonitor._handle_session_change` (`pc_state.py` lines 98-103,
identical in `machine_state_watcher.py`): invoke every handler registered
under the exact `SessionEvent`, then every handler registered under
`SessionEvent.ANY`, each receiving the concrete event and session id. -/
def handle_session_change {H : Type} (reg : SessionEvent → List H)
    (event : SessionEvent) (session_id : Int) : List (H × SessionEvent × Int) :=
  ((reg event).map (fun h => (h, event, session_id)))
    ++ ((reg .ANY).map (fun h => (h, event, session_id)))

/-- `WorkstationMonitor._window_procedure` (`pc_state.py` lines 88-96):
a `WM_WTSSESSION_CHANGE = 0x2B1` message goes through
`_handle_session_change` (with `SessionEvent(wparam)`, whose lookup can
raise, modelled as `Except`); `WM_CLOSE`/`WM_DESTROY` instead perform
teardown without any dispatch; everything else is passed to the default
window procedure. Result: the handler invocations and a teardown flag. -/
def wm_window_procedure {H : Type} (reg : SessionEvent → List H)
    (msg wparam lparam : Int) : Except Unit (List (H × SessionEvent × Int) × Bool) :=
  if msg = 0x2B1 then
    match SessionEvent.ofCode wparam with
    | some ev => .ok (handle_session_change reg ev lparam, false)
    | none => .error ()
  else if msg = 0x10 ∨ msg = 0x2 then .ok ([], true)
  else .ok ([], false)

/-- Claim C7, amended: in `WorkstationEventsListener`, a teardown broadcast
(`WM_CLOSE = 0x10` or `WM_DESTROY = 0x2`) does go through generic dispatch —
every handler matching it (in particular every any-event handler) is invoked
— and only afterwards triggers teardown of the pump loop; by contrast, in
`WorkstationMonitor` (`pc_state.py`) teardown broadcasts bypass dispatch
entirely: no handler is invoked and only teardown happens. -/
theorem teardown_behavior_amended :
    (∀ (H : Type) (reg : Registry H) (w l : Option Int),
        window_procedure reg (some 0x10) w l = (dispatch reg (some 0x10) w l, true) ∧
        window_procedure reg (some 0x2) w l = (dispatch reg (some 0x2) w l, true)) ∧
    (∀ (H : Type) (reg : SessionEvent → List H) (w l : Int),
        wm_window_procedure reg 0x10 w l = .ok ([], true) ∧
        wm_window_procedure reg 0x2 w l = .ok ([], true)) := by
  refine ⟨fun H reg w l => ⟨?_, ?_⟩, fun H reg w l => ⟨?_, ?_⟩⟩ <;>
    simp [window_procedure, wm_window_procedure]

/-- The lock handler registered by `WorkstationState.__init__`
(`workstation_events.py` line 157): `lambda e: setattr(self, "locked", True)`
— it ignores the event and sets the `locked` field to true. -/
def lockHandlerWS : PyEvent → Bool → Bool := fun _ _ => true

/-- The unlock handler registered by `WorkstationState.__init__`
(`workstation_events.py` line 158): sets the `locked` field to false. -/
def unlockHandlerWS : PyEvent → Bool → Bool := fun _ _ => false

/-- The listener registry after `WorkstationState.__init__` performed its two
registrations: the lock handler under `LockEvent()` and then the unlock
handler under `UnlockEvent()`. -/
def wsRegistry : Registry (PyEvent → Bool → Bool) :=
  onEvent (onEvent emptyRegistry (.inst (defaultEvent .lockE)) lockHandlerWS)
    (.inst (defaultEvent .unlockE)) unlockHandlerWS

/-- An injected session lock or unlock broadcast, carrying the session id
that the OS passes in `lparam`. -/
inductive LUEvent where
  | lockEv (sessionId : Int)
  | unlockEv (sessionId : Int)
  deriving DecidableEq

/-- The `wparam` of a session change broadcast: `WTS_SESSION_LOCK = 0x7` or
`WTS_SESSION_UNLOCK = 0x8`. -/
def LUEvent.wparamOf : LUEvent → Int
  | .lockEv _ => 0x7
  | .unlockEv _ => 0x8

/-- The `lparam` (session id) of a session change broadcast. -/
def LUEvent.sid : LUEvent → Int
  | .lockEv s => s
  | .unlockEv s => s

/-- Processing of one received lock/unlock broadcast by the listener owned by
`WorkstationState`: the `WM_WTSSESSION_CHANGE = 0x2B1` message is dispatched
through the four-tier fan-out against the two registered handlers, and each
invoked handler updates the shared `locked` boolean in turn. -/
def wsStep (locked : Bool) (ev : LUEvent) : Bool :=
  (dispatch wsRegistry (some 0x2B1) (some ev.wparamOf) (some ev.sid)).foldl
    (fun st p => p.1 p.2 st) locked

/-- `WorkstationState.is_locked` after a whole sequence of received
broadcasts, starting from the constructor value `locked = False`. -/
def wsRun (evs : List LUEvent) : Bool := evs.foldl wsStep false

/-- spec side: the expected lock state — true iff the most recent event in
the sequence is a lock event, false before any event. -/
def lastLockExpected (evs : List LUEvent) : Bool :=
  match evs.getLast? with
  | none => false
  | some (.lockEv _) => true
  | some (.unlockEv _) => false

theorem wsStep_lock (b : Bool) (sid : Int) : wsStep b (.lockEv sid) = true := by
  simp [wsStep, dispatch, wsRegistry, onEvent, emptyRegistry, astuple, defaultEvent,
    lockHandlerWS, unlockHandlerWS, LUEvent.wparamOf, LUEvent.sid]

theorem wsStep_unlock (b : Bool) (sid : Int) : wsStep b (.unlockEv sid) = false := by
  simp [wsStep, dispatch, wsRegistry, onEvent, emptyRegistry, astuple, defaultEvent,
    lockHandlerWS, unlockHandlerWS, LUEvent.wparamOf, LUEvent.sid]

theorem wsFold_last (evs : List LUEvent) : ∀ b : Bool,
    evs.foldl wsStep b =
      (match evs.getLast? with
        | none => b
        | some (.lockEv _) => true
        | some (.unlockEv _) => false) := by
  induction evs with
  | nil => intro b; rfl
  | cons e rest ih =>
    intro b
    rw [List.foldl_cons, ih (wsStep b e)]
    cases rest with
    | nil =>
      cases e with
      | lockEv sid => simp [wsStep_lock]
      | unlockEv sid => simp [wsStep_unlock]
    | cons r rs =>
      rw [List.getLast?_cons_cons]
      have hx : ∃ x, (r :: rs).getLast? = some x := by
        cases hh : (r :: rs).getLast? with
        | none => exact absurd hh (by simp)
        | some x => exact ⟨x, rfl⟩
      obtain ⟨x, hx⟩ := hx
      rw [hx]
      cases x <;> rfl

/-- Claim C2: before any event `is_locked()` is false; after any finite
sequence of injected lock/unlock broadcasts it is true iff the most recent
broadcast is a lock; and the update is idempotent under repeated identical
events — appending a duplicate of the last event never changes the state. -/
theorem workstationState_locked_iff_last_lock :
    wsRun [] = false ∧
    (∀ evs : List LUEvent, wsRun evs = lastLockExpected evs) ∧
    (∀ (evs : List LUEvent) (e : LUEvent), wsRun (evs ++ [e, e]) = wsRun (evs ++ [e])) := by
  refine ⟨rfl, fun evs => ?_, fun evs e => ?_⟩
  · unfold wsRun lastLockExpected
    exact wsFold_last evs false
  · have h1 : (evs ++ [e, e]).getLast? = some e := by
      rw [show evs ++ [e, e] = (evs ++ [e]) ++ [e] by simp]
      exact List.getLast?_concat _
    have h2 : (evs ++ [e]).getLast? = some e := List.getLast?_concat _
    unfold wsRun
    rw [wsFold_last, wsFold_last, h1, h2]

/-- The mutable fields of `MachineStateScanner` that its event handler reads
and writes (`machine_state_watcher.py` lines 105-157), together with
invocation counters for the two user callbacks. `hasLockFunc` /
`hasUnlockFunc` record whether `on_lock` / `on_unlock` set a callback. -/
structure ScannerState where
  locked : Bool
  unlocked : Bool
  hasLockFunc : Bool
  hasUnlockFunc : Bool
  lockCalls : Nat
  unlockCalls : Nat
  deriving DecidableEq

/-- A freshly constructed `MachineStateScanner`: `locked = unlocked = False`,
callbacks as configured before the pump starts. -/
def initialScanner (hasL hasU : Bool) : ScannerState :=
  ⟨false, false, hasL, hasU, 0, 0⟩

/-- `MachineStateScanner.handler` (`machine_state_watcher.py` lines 145-157):
on `SESSION_LOCK` set `locked = True`, `unlocked = False` and, if an
`on_lock` callback is set, invoke it; symmetrically for `SESSION_UNLOCK`;
ignore every other session event. Note there is no transition check — the
callback fires on every matching event. -/
def scannerHandler (s : ScannerState) (ev : SessionEvent) : ScannerState :=
  if ev = .SESSION_LOCK then
    { s with locked := true, unlocked := false,
             lockCalls := if s.hasLockFunc then s.lockCalls + 1 else s.lockCalls }
  else if ev = .SESSION_UNLOCK then
    { s with locked := false, unlocked := true,
             unlockCalls := if s.hasUnlockFunc then s.unlockCalls + 1 else s.unlockCalls }
  else s

/-- The monitor registry set up by `MachineStateScanner.run`
(`machine_state_watcher.py` lines 118-122): exactly one handler — the
scanner handler — registered under `SessionEvent.ANY`. -/
def scannerMonitorRegistry : SessionEvent → List Unit :=
  fun e => if e = .ANY then [()] else []

/-- Delivery of one session change broadcast to the scanner: the monitor
fans the event out through `_handle_session_change` against the scanner
registry, and every resulting invocation runs `scannerHandler` on the
scanner state. -/
def scannerDeliver (s : ScannerState) (ev : SessionEvent) (sid : Int) : ScannerState :=
  (handle_session_change scannerMonitorRegistry ev sid).foldl
    (fun st inv => scannerHandler st inv.2.1) s

/-- The scanner state after a sequence of session change broadcasts. -/
def scannerRun (s : ScannerState) (evs : List (SessionEvent × Int)) : ScannerState :=
  evs.foldl (fun st p => scannerDeliver st p.1 p.2) s

/-- spec side: the number of unlocked-to-locked transitions in a sequence of
session events, starting from the unlocked state — a lock event counts only
when the state is not already locked. -/
def lockTransitionCount (evs : List (SessionEvent × Int)) : Nat :=
  (evs.foldl (fun (p : Bool × Nat) e =>
      if e.1 = SessionEvent.SESSION_LOCK then (true, if p.1 then p.2 else p.2 + 1)
      else if e.1 = SessionEvent.SESSION_UNLOCK then (false, p.2)
      else p)
    (false, 0)).2

/-- Claim C3, counterexample: with an `on_lock` callback set, two consecutive
`SESSION_LOCK` broadcasts with no intervening unlock — a single
unlocked-to-locked transition — make the scanner invoke the callback twice,
not exactly once per transition. -/
theorem scanner_double_lock_counterexample :
    (scannerRun (initialScanner true true)
        [(.SESSION_LOCK, 0), (.SESSION_LOCK, 0)]).lockCalls = 2 ∧
    lockTransitionCount [(.SESSION_LOCK, 0), (.SESSION_LOCK, 0)] = 1 := by
  decide

theorem scannerDeliver_fields (s : ScannerState) (ev : SessionEvent) (sid : Int) :
    scannerDeliver s ev sid = scannerHandler s ev ∨
      (ev = .ANY ∧ scannerDeliver s ev sid = s) := by
  cases ev <;>
    simp [scannerDeliver, handle_session_change, scannerMonitorRegistry, scannerHandler]

theorem scannerHandler_counts (s : ScannerState) (ev : SessionEvent) :
    (scannerHandler s ev).hasLockFunc = s.hasLockFunc ∧
    (scannerHandler s ev).hasUnlockFunc = s.hasUnlockFunc ∧
    (scannerHandler s ev).lockCalls =
      (if ev = .SESSION_LOCK ∧ s.hasLockFunc then s.lockCalls + 1 else s.lockCalls) ∧
    (scannerHandler s ev).unlockCalls =
      (if ev = .SESSION_UNLOCK ∧ s.hasUnlockFunc then s.unlockCalls + 1 else s.unlockCalls) := by
  cases ev <;> by_cases hL : s.hasLockFunc <;> by_cases hU : s.hasUnlockFunc <;>
    simp [scannerHandler, hL, hU]

theorem scannerDeliver_counts (s : ScannerState) (ev : SessionEvent) (sid : Int) :
    (scannerDeliver s ev sid).hasLockFunc = s.hasLockFunc ∧
    (scannerDeliver s ev sid).hasUnlockFunc = s.hasUnlockFunc ∧
    (scannerDeliver s ev sid).lockCalls =
      (if ev = .SESSION_LOCK ∧ s.hasLockFunc then s.lockCalls + 1 else s.lockCalls) ∧
    (scannerDeliver s ev sid).unlockCalls =
      (if ev = .SESSION_UNLOCK ∧ s.hasUnlockFunc then s.unlockCalls + 1 else s.unlockCalls) := by
  rcases scannerDeliver_fields s ev sid with h | ⟨hev, h⟩
  · rw [h]; exact scannerHandler_counts s ev
  · subst hev; rw [h]; simp

theorem scannerRun_counts (evs : List (SessionEvent × Int)) : ∀ s : ScannerState,
    (scannerRun s evs).hasLockFunc = s.hasLockFunc ∧
    (scannerRun s evs).hasUnlockFunc = s.hasUnlockFunc ∧
    (scannerRun s evs).lockCalls = s.lockCalls +
      (if s.hasLockFunc then evs.countP (fun p => decide (p.1 = .SESSION_LOCK)) else 0) ∧
    (scannerRun s evs).unlockCalls = s.unlockCalls +
      (if s.hasUnlockFunc then evs.countP (fun p => decide (p.1 = .SESSION_UNLOCK)) else 0) := by
  induction evs with
  | nil => intro s; simp [scannerRun]
  | cons p rest ih =>
    intro s
    have hstep := scannerDeliver_counts s p.1 p.2
    have hrest := ih (scannerDeliver s p.1 p.2)
    have hrun : scannerRun s (p :: rest) = scannerRun (scannerDeliver s p.1 p.2) rest := rfl
    rw [hrun]
    refine ⟨hrest.1.trans hstep.1, hrest.2.1.trans hstep.2.1, ?_, ?_⟩
    · rw [hrest.2.2.1, hstep.2.2.1, hstep.1]
      by_cases hL : s.hasLockFunc <;> by_cases hE : p.1 = SessionEvent.SESSION_LOCK <;>
        simp [hL, hE, List.countP_cons] <;> omega
    · rw [hrest.2.2.2, hstep.2.2.2, hstep.2.1]
      by_cases hU : s.hasUnlockFunc <;> by_cases hE : p.1 = SessionEvent.SESSION_UNLOCK <;>
        simp [hU, hE, List.countP_cons] <;> omega

/-- The state of the `watch_lock_unlock` polling loop
(`machine_state_watcher.py` lines 160-193): the scanner it started (with no
event-driven callbacks configured), the two deduplication flags
`already_locked` / `already_unlocked` (both starting false), and counters
for the invocations of the loop callbacks `on_lock` / `on_unlock`. -/
structure WatchState where
  sc : ScannerState
  already_locked : Bool
  already_unlocked : Bool
  onLockCalls : Nat
  onUnlockCalls : Nat
  deriving DecidableEq

/-- One atomic step of the combined system: either the pump thread delivers a
session change broadcast to the scanner, or the polling loop performs one
iteration of its body — if `ms.locked` and not `already_locked`, invoke
`on_lock` and set `already_locked = True`, `already_unlocked = False`;
`elif ms.unlocked` symmetrically; otherwise do nothing. -/
inductive WatchAct where
  | broadcast (ev : SessionEvent) (sid : Int)
  | poll
  deriving DecidableEq

def watchStep (w : WatchState) : WatchAct → WatchState
  | .broadcast ev sid => { w with sc := scannerDeliver w.sc ev sid }
  | .poll =>
    if w.sc.locked then
      if ¬ w.already_locked then
        { w with onLockCalls := w.onLockCalls + 1,
                 already_locked := true, already_unlocked := false }
      else w
    else if w.sc.unlocked then
      if ¬ w.already_unlocked then
        { w with onUnlockCalls := w.onUnlockCalls + 1,
                 already_unlocked := true, already_locked := false }
      else w
    else w

def watchRun (w : WatchState) (acts : List WatchAct) : WatchState :=
  acts.foldl watchStep w

/-- The state at the start of `watch_lock_unlock`: a fresh scanner with no
event-driven callbacks, both flags false, no callback invocations yet. -/
def initialWatch : WatchState := ⟨initialScanner false false, false, false, 0, 0⟩

/-- One lock/unlock round observed by the poller: a lock broadcast, then at
least one polling iteration, then an unlock broadcast, then at least one
polling iteration. The pair `(n, m)` gives the extra polls in each phase. -/
def roundTrace (sid : Int) (r : Nat × Nat) : List WatchAct :=
  [WatchAct.broadcast .SESSION_LOCK sid] ++ List.replicate (r.1 + 1) WatchAct.poll
    ++ [WatchAct.broadcast .SESSION_UNLOCK sid] ++ List.replicate (r.2 + 1) WatchAct.poll

/-- A sequence of such rounds. -/
def roundsTrace (sid : Int) (rs : List (Nat × Nat)) : List WatchAct :=
  rs.flatMap (roundTrace sid)

theorem watchRun_append (w : WatchState) (l1 l2 : List WatchAct) :
    watchRun w (l1 ++ l2) = watchRun (watchRun w l1) l2 := by
  simp [watchRun, List.foldl_append]

theorem watchRun_poll_fixpoint (w : WatchState) (hfix : watchStep w .poll = w) :
    ∀ n : Nat, watchRun w (List.replicate n .poll) = w := by
  intro n
  induction n with
  | zero => rfl
  | succ k ih =>
    rw [List.replicate_succ]
    show watchRun (watchStep w .poll) (List.replicate k .poll) = w
    rw [hfix, ih]

theorem watchRun_round (sid : Int) (n m : Nat) (lk ul hLf hUf : Bool) (lc uc : Nat)
    (aU : Bool) (oL oU : Nat) :
    watchRun ⟨⟨lk, ul, hLf, hUf, lc, uc⟩, false, aU, oL, oU⟩ (roundTrace sid (n, m)) =
      ⟨⟨false, true, hLf, hUf, (if hLf then lc + 1 else lc), (if hUf then uc + 1 else uc)⟩,
        false, true, oL + 1, oU + 1⟩ := by
  have hsplit : roundTrace sid (n, m) =
      (([WatchAct.broadcast .SESSION_LOCK sid] ++ List.replicate (n + 1) WatchAct.poll)
        ++ [WatchAct.broadcast .SESSION_UNLOCK sid]) ++ List.replicate (m + 1) WatchAct.poll := by
    simp [roundTrace]
  have s1 : watchRun ⟨⟨lk, ul, hLf, hUf, lc, uc⟩, false, aU, oL, oU⟩
      [WatchAct.broadcast .SESSION_LOCK sid] =
      ⟨⟨true, false, hLf, hUf, (if hLf then lc + 1 else lc), uc⟩, false, aU, oL, oU⟩ := by
    simp [watchRun, watchStep, scannerDeliver, handle_session_change,
      scannerMonitorRegistry, scannerHandler]
  have s2 : watchRun ⟨⟨true, false, hLf, hUf, (if hLf then lc + 1 else lc), uc⟩,
        false, aU, oL, oU⟩ (List.replicate (n + 1) WatchAct.poll) =
      ⟨⟨true, false, hLf, hUf, (if hLf then lc + 1 else lc), uc⟩,
        true, false, oL + 1, oU⟩ := by
    rw [List.replicate_succ]
    show watchRun (watchStep _ .poll) (List.replicate n WatchAct.poll) = _
    rw [show watchStep ⟨⟨true, false, hLf, hUf, (if hLf then lc + 1 else lc), uc⟩,
        false, aU, oL, oU⟩ .poll =
      ⟨⟨true, false, hLf, hUf, (if hLf then lc + 1 else lc), uc⟩,
        true, false, oL + 1, oU⟩ from by simp [watchStep]]
    exact watchRun_poll_fixpoint _ (by simp [watchStep]) n
  have s3 : watchRun ⟨⟨true, false, hLf, hUf, (if hLf then lc + 1 else lc), uc⟩,
        true, false, oL + 1, oU⟩ [WatchAct.broadcast .SESSION_UNLOCK sid] =
      ⟨⟨false, true, hLf, hUf, (if hLf then lc + 1 else lc), (if hUf then uc + 1 else uc)⟩,
        true, false, oL + 1, oU⟩ := by
    simp [watchRun, watchStep, scannerDeliver, handle_session_change,
      scannerMonitorRegistry, scannerHandler]
  have s4 : watchRun ⟨⟨false, true, hLf, hUf, (if hLf then lc + 1 else lc),
        (if hUf then uc + 1 else uc)⟩, true, false, oL + 1, oU⟩
      (List.replicate (m + 1) WatchAct.poll) =
      ⟨⟨false, true, hLf, hUf, (if hLf then lc + 1 else lc), (if hUf then uc + 1 else uc)⟩,
        false, true, oL + 1, oU + 1⟩ := by
    rw [List.replicate_succ]
    show watchRun (watchStep _ .poll) (List.replicate m WatchAct.poll) = _
    rw [show watchStep ⟨⟨false, true, hLf, hUf, (if hLf then lc + 1 else lc),
        (if hUf then uc + 1 else uc)⟩, true, false, oL + 1, oU⟩ .poll =
      ⟨⟨false, true, hLf, hUf, (if hLf then lc + 1 else lc), (if hUf then uc + 1 else uc)⟩,
        false, true, oL + 1, oU + 1⟩ from by simp [watchStep]]
    exact watchRun_poll_fixpoint _ (by simp [watchStep]) m
  rw [hsplit, watchRun_append, watchRun_append, watchRun_append, s1, s2, s3, s4]

theorem watchRun_rounds (sid : Int) (rs : List (Nat × Nat)) :
    ∀ (lk ul hLf hUf : Bool) (lc uc : Nat) (aU : Bool) (oL oU : Nat),
      (watchRun ⟨⟨lk, ul, hLf, hUf, lc, uc⟩, false, aU, oL, oU⟩
          (roundsTrace sid rs)).onLockCalls = oL + rs.length ∧
      (watchRun ⟨⟨lk, ul, hLf, hUf, lc, uc⟩, false, aU, oL, oU⟩
          (roundsTrace sid rs)).onUnlockCalls = oU + rs.length := by
  induction rs with
  | nil => intros; simp [roundsTrace, watchRun]
  | cons r rest ih =>
    intro lk ul hLf hUf lc uc aU oL oU
    obtain ⟨n, m⟩ := r
    have hsplit : roundsTrace sid ((n, m) :: rest) =
        roundTrace sid (n, m) ++ roundsTrace sid rest := by
      simp [roundsTrace]
    rw [hsplit, watchRun_append, watchRun_round]
    have h := ih false true hLf hUf (if hLf then lc + 1 else lc) (if hUf then uc + 1 else uc)
      true (oL + 1) (oU + 1)
    refine ⟨?_, ?_⟩
    · rw [h.1, List.length_cons]; omega
    · rw [h.2, List.length_cons]; omega

/-- Claim C3, amended: the two halves of the Lock/Unlock Callback Scanner
behave differently. (a) The event-driven callbacks set via `on_lock` /
`on_unlock` are invoked once per matching session event, with no transition
check, so k consecutive lock events cause k `onLock` invocations (the
counterexample shows 2 for 2). (b) The polling loop `watch_lock_unlock`
does deduplicate: over any sequence of lock/unlock rounds in which each phase
is observed by at least one polling iteration (and any number of extra
iterations), its `on_lock` and `on_unlock` callbacks each fire exactly once
per round — once per state transition — regardless of how many iterations
observe the unchanged state. -/
theorem scanner_per_event_and_poll_per_transition :
    (∀ (s : ScannerState) (evs : List (SessionEvent × Int)),
      (scannerRun s evs).lockCalls = s.lockCalls +
        (if s.hasLockFunc then evs.countP (fun p => decide (p.1 = .SESSION_LOCK)) else 0) ∧
      (scannerRun s evs).unlockCalls = s.unlockCalls +
        (if s.hasUnlockFunc then evs.countP (fun p => decide (p.1 = .SESSION_UNLOCK)) else 0)) ∧
    (∀ (sid : Int) (rs : List (Nat × Nat)),
      (watchRun initialWatch (roundsTrace sid rs)).onLockCalls = rs.length ∧
      (watchRun initialWatch (roundsTrace sid rs)).onUnlockCalls = rs.length) := by
  constructor
  · intro s evs
    exact ⟨(scannerRun_counts evs s).2.2.1, (scannerRun_counts evs s).2.2.2⟩
  · intro sid rs
    have h := watchRun_rounds sid rs false false false false 0 0 false 0 0
    exact ⟨h.1.trans (Nat.zero_add _), h.2.trans (Nat.zero_add _)⟩

/-- One operation observed by the `FreezeDetector` state (`workstation.py`
lines 9-36): either one iteration of the watchdog loop body — which samples
the clock twice, first (`tCheck`) for the comparison
`time.time() - threshold > last_time` and then (`tUpd`) for
`last_time = time.time()` — or a call to `was_frozen()`. -/
inductive FDOp where
  | tick (tCheck tUpd : Int)
  | check

/-- The two fields of `FreezeDetector` relevant to freeze reporting: the
`last_time` local of `run` and the `_frozen` flag. -/
structure FDState where
  lastTime : Int
  frozen : Bool

/-- One step: a watchdog tick sets `_frozen = True` when the clock sample
minus the threshold exceeds `last_time` (leaving it untouched otherwise) and
then updates `last_time`; `was_frozen()` returns the flag and clears it. -/
def fdStep (threshold : Int) (s : FDState) : FDOp → FDState × Option Bool
  | .tick tCheck tUpd =>
    (⟨tUpd, if tCheck - threshold > s.lastTime then true else s.frozen⟩, none)
  | .check => (⟨s.lastTime, false⟩, some s.frozen)

/-- The sequence of `was_frozen()` results along a sequence of operations. -/
def fdRun (threshold : Int) (s : FDState) : List FDOp → List Bool
  | [] => []
  | op :: rest =>
    match fdStep threshold s op with
    | (s2, none) => fdRun threshold s2 rest
    | (s2, some b) => b :: fdRun threshold s2 rest

/-- The default `threshold` argument of `FreezeDetector.__init__`. -/
def freezeDefaultThreshold : Int := 5

/-- spec side: a list of tick segments (the ticks between consecutive
`was_frozen()` calls, each a `(tCheck, tUpd)` clock pair) arranged into the
operation sequence tick* check tick* check ... -/
def segTrace (segs : List (List (Int × Int))) : List FDOp :=
  segs.flatMap (fun ts => ts.map (fun p => FDOp.tick p.1 p.2) ++ [FDOp.check])

/-- spec side: whether some tick in the segment sees a gap strictly greater
than the threshold between its comparison sample and the recorded time of the
preceding tick (`t0` for the first tick of the segment). -/
def gapFreeze (threshold t0 : Int) (ts : List (Int × Int)) : Bool :=
  (List.zip (t0 :: ts.map Prod.snd) ts).any (fun p => decide (p.2.1 - p.1 > threshold))

/-- spec side: the expected result of each `was_frozen()` call — true iff its
segment contains an excessive inter-tick gap, the reference time being
threaded from segment to segment (last tick update time, or carried over when
a segment has no tick). -/
def expectedFrozen (threshold t0 : Int) : List (List (Int × Int)) → List Bool
  | [] => []
  | ts :: rest =>
    gapFreeze threshold t0 ts :: expectedFrozen threshold ((ts.map Prod.snd).getLastD t0) rest

theorem fdRun_ticks (threshold : Int) (ts : List (Int × Int)) :
    ∀ (lt : Int) (f : Bool) (rest : List FDOp),
      fdRun threshold ⟨lt, f⟩ ((ts.map (fun p => FDOp.tick p.1 p.2)) ++ rest) =
        fdRun threshold ⟨(ts.map Prod.snd).getLastD lt, f || gapFreeze threshold lt ts⟩ rest := by
  induction ts with
  | nil => intro lt f rest; simp [gapFreeze]
  | cons p ts ih =>
    intro lt f rest
    rw [List.map_cons, List.cons_append]
    show fdRun threshold ⟨p.2, if p.1 - threshold > lt then true else f⟩ _ = _
    rw [ih p.2 (if p.1 - threshold > lt then true else f) rest]
    have hgap : gapFreeze threshold lt (p :: ts) =
        (decide (p.1 - lt > threshold) || gapFreeze threshold p.2 ts) := by
      simp [gapFreeze, List.zip_cons_cons]
    have hcond : (if p.1 - threshold > lt then true else f) =
        (f || decide (p.1 - lt > threshold)) := by
      by_cases hc : p.1 - threshold > lt
      · have : p.1 - lt > threshold := by omega
        simp [hc, this]
      · have : ¬ (p.1 - lt > threshold) := by omega
        simp [hc, this]
    have hlast : ((p :: ts).map Prod.snd).getLastD lt = (ts.map Prod.snd).getLastD p.2 := by
      rw [List.map_cons, List.getLastD_cons]
    have hbool : ((f || decide (p.1 - lt > threshold)) || gapFreeze threshold p.2 ts)
        = (f || (decide (p.1 - lt > threshold) || gapFreeze threshold p.2 ts)) :=
      Bool.or_assoc f _ _
    rw [hgap, hcond, hlast, hbool]

/-- Claim C5: for every threshold, construction time and interleaving of
watchdog ticks with `was_frozen()` calls, the value returned by each
`was_frozen()` call is true iff some tick since the previous call (or since
the start, for the first call) observed a clock gap strictly exceeding the
threshold since the preceding tick; the flag is consumed on read, so a call
directly after another with no intervening excessive gap yields false, and
several excessive gaps between two calls collapse into a single true. The
default threshold of the source is five seconds. -/
theorem freezeDetector_outputs_spec :
    (∀ (threshold t0 : Int) (segs : List (List (Int × Int))),
      fdRun threshold ⟨t0, false⟩ (segTrace segs) = expectedFrozen threshold t0 segs) ∧
    freezeDefaultThreshold = 5 := by
  refine ⟨fun threshold t0 segs => ?_, rfl⟩
  induction segs generalizing t0 with
  | nil => rfl
  | cons ts rest ih =>
    have hsplit : segTrace (ts :: rest) =
        (ts.map (fun p => FDOp.tick p.1 p.2)) ++ (FDOp.check :: segTrace rest) := by
      simp [segTrace]
    rw [hsplit, fdRun_ticks threshold ts t0 false (FDOp.check :: segTrace rest)]
    show (false || gapFreeze threshold t0 ts) ::
        fdRun threshold ⟨(ts.map Prod.snd).getLastD t0, false⟩ (segTrace rest) = _
    rw [Bool.false_or, ih ((ts.map Prod.snd).getLastD t0)]
    rfl

/-- The set of currently live (not yet destroyed) window handles of the
process, as seen by the OS. After a completed `stop()`, the listener window
has been destroyed by `_window_procedure` (`workstation_events.py` line 138),
so its handle is no longer in this set. -/
structure W32World where
  liveWindows : List Int

/-- Model of the external `win32gui.PostMessage` contract: posting to a live
window handle succeeds; posting to a handle that is not a live window fails,
and the pywin32 wrapper surfaces the failure as a raised error (error code
1400, invalid window handle). -/
def postMessage (world : W32World) (hwnd _msg : Int) : Except Int Unit :=
  if hwnd ∈ world.liveWindows then .ok () else .error 1400

/-- `WorkstationEventsListener.stop` (`workstation_events.py` lines 121-123):
unconditionally posts `WM_CLOSE = 0x10` to the stored window handle, with no
guard against the listener being already stopped and no exception handling. -/
def weListenerStop (world : W32World) (window_handle : Int) : Except Int Unit :=
  postMessage world window_handle 0x10

/-- `MachineStateScanner.stop` (`machine_state_watcher.py` lines 124-129):
runs the underlying monitor stop inside `try: ... except Exception: pass`, so
whatever the inner call does — including raising — the method returns
successfully. The argument is the result of the inner call. -/
def msScannerStop (inner : Except Int Unit) : Except Int Unit :=
  match inner with
  | .ok _ => .ok ()
  | .error _ => .ok ()

/-- Claim C8, counterexample: a `WorkstationEventsListener` whose window
(handle 42) has already been destroyed by a completed first `stop()`; the
second `stop()` posts `WM_CLOSE` to the dead handle and raises an
invalid-window-handle error instead of being a successful no-op. -/
theorem stop_after_stop_raises_counterexample :
    weListenerStop ⟨[]⟩ 42 = .error 1400 :=
  rfl

/-- Claim C8, amended: calling `stop()` again on an already-stopped
`MachineStateScanner` (the `machine_state_watcher.py` variant) is a no-op
returning success — the blanket `except` swallows every error of the inner
stop, which itself mutates no scanner state; but calling `stop()` again on an
already-stopped `WorkstationEventsListener` is not: the unguarded re-post of
`WM_CLOSE` to the destroyed window handle fails with an invalid-window-handle
error. -/
theorem stop_amended :
    (∀ inner : Except Int Unit, msScannerStop inner = .ok ()) ∧
    (∀ (world : W32World) (h : Int), h ∉ world.liveWindows →
      weListenerStop world h = .error 1400) := by
  constructor
  · intro inner
    cases inner <;> rfl
  · intro world h hdead
    simp [weListenerStop, postMessage, hdead]

/-- Claim C8, witness for the amended statement: applied to a concrete failed
inner stop and to a concrete stopped listener whose window handle 42 is no
longer live. -/
theorem stop_amended_witness :
    msScannerStop (.error 7) = .ok () ∧ weListenerStop ⟨[]⟩ 42 = .error 1400 :=
  ⟨stop_amended.1 (.error 7),
   stop_amended.2 ⟨[]⟩ 42 (by decide)⟩

end Winytils
